import Mathlib

/-!
Verification of the disaster-response aggregation pipeline
(official-updates fetch/filter/search/rank, social-report fetch/process,
and the caching controllers) against its natural-language specification.

JavaScript string primitives are modelled over `List Char`:
`toLowerCase` maps `Char.toLower` over the characters (the repository's
data is ASCII), `includes` is substring containment, `split`/`trim` are
`String.splitOn`/`String.trim`.  JavaScript timestamps are modelled as
integers (milliseconds); `Date.now()` is an explicit `now : Int`
parameter.  Machine numbers in this code never overflow (small integer
scores and ranks), so `Int` is used directly.
-/

/-- Model of JavaScript `String.prototype.toLowerCase` (ASCII data). -/
def jsToLower (s : String) : String :=
  ⟨s.data.map Char.toLower⟩

/-- `charsLead pat l` is true when `pat` is an initial segment of `l`. -/
def charsLead : List Char → List Char → Bool
  | [], _ => true
  | _ :: _, [] => false
  | p :: ps, c :: cs => p == c && charsLead ps cs

/-- `charsContain pat l` is true when `pat` occurs contiguously in `l`. -/
def charsContain (pat : List Char) : List Char → Bool
  | [] => charsLead pat []
  | c :: cs => charsLead pat (c :: cs) || charsContain pat cs

/-- Model of JavaScript `hay.includes(pat)`. -/
def jsIncludes (hay pat : String) : Bool :=
  charsContain pat.data hay.data

/-- `pat` occurs as a contiguous substring of `hay`. -/
def isSubstrOf (pat hay : String) : Prop :=
  ∃ l r : List Char, hay.data = l ++ pat.data ++ r

/-- Split accumulation for `jsSplitComma`: `acc` holds the current field
reversed. -/
def splitCommaChars : List Char → List Char → List String
  | [], acc => [⟨acc.reverse⟩]
  | c :: cs, acc =>
      if c == ',' then ⟨acc.reverse⟩ :: splitCommaChars cs []
      else splitCommaChars cs (c :: acc)

/-- Model of JavaScript `s.split(',')` (the only separator this code
uses): maximal comma-free fields, empty fields preserved. -/
def jsSplitComma (s : String) : List String :=
  splitCommaChars s.data []

/-- Model of JavaScript `s.trim()`: drop whitespace from both ends. -/
def jsTrim (s : String) : String :=
  ⟨(((s.data.dropWhile Char.isWhitespace).reverse.dropWhile Char.isWhitespace).reverse)⟩

theorem charsLead_iff (p : List Char) : ∀ l, charsLead p l = true ↔ ∃ r, l = p ++ r := by
  induction p with
  | nil => intro l; simp [charsLead]
  | cons c cs ih =>
    intro l
    cases l with
    | nil =>
      simp [charsLead]
    | cons d ds =>
      simp only [charsLead, Bool.and_eq_true, beq_iff_eq, ih ds, List.cons_append,
        List.cons.injEq]
      constructor
      · rintro ⟨hcd, r, hr⟩
        exact ⟨r, hcd.symm, hr⟩
      · rintro ⟨r, hdc, hr⟩
        exact ⟨hdc.symm, r, hr⟩

theorem charsContain_iff (p : List Char) : ∀ l, charsContain p l = true ↔ ∃ s r, l = s ++ p ++ r := by
  intro l
  induction l with
  | nil =>
    show charsLead p [] = true ↔ _
    rw [charsLead_iff]
    constructor
    · rintro ⟨r, hr⟩
      exact ⟨[], r, by simpa using hr⟩
    · rintro ⟨s, r, hr⟩
      have h2 := hr.symm
      rw [List.append_assoc] at h2
      obtain ⟨hs, hpr⟩ := List.append_eq_nil.mp h2
      obtain ⟨hp, hr2⟩ := List.append_eq_nil.mp hpr
      exact ⟨[], by simp [hp]⟩
  | cons c cs ih =>
    simp only [charsContain, Bool.or_eq_true, charsLead_iff, ih]
    constructor
    · rintro (⟨r, hr⟩ | ⟨s, r, hr⟩)
      · exact ⟨[], r, by simpa using hr⟩
      · exact ⟨c :: s, r, by simp [hr]⟩
    · rintro ⟨s, r, hr⟩
      cases s with
      | nil => exact Or.inl ⟨r, by simpa using hr⟩
      | cons a s2 =>
        simp only [List.cons_append, List.cons.injEq] at hr
        exact Or.inr ⟨s2, r, hr.2⟩

theorem jsIncludes_iff (hay pat : String) : jsIncludes hay pat = true ↔ isSubstrOf pat hay :=
  charsContain_iff pat.data hay.data

instance instDecidableIsSubstrOf (pat hay : String) : Decidable (isSubstrOf pat hay) :=
  decidable_of_iff (jsIncludes hay pat = true) (jsIncludes_iff hay pat)

/-- JavaScript truthiness of an optional string (absent and `""` are falsy). -/
def truthyStr : Option String → Bool
  | none => false
  | some s => !(s == "")

/-- Model of the JavaScript pattern `x || dflt` on an optional string. -/
def orFalsy (o : Option String) (dflt : String) : String :=
  match o with
  | none => dflt
  | some s => if s == "" then dflt else s

/-- Model of the JavaScript pattern `x || null` on an optional string. -/
def nullFalsy (o : Option String) : Option String :=
  match o with
  | none => none
  | some s => if s == "" then none else some s

/-- An official update record (`UpdateRecord` of the data model). -/
structure UpdateRecord where
  id : String
  source : String
  title : String
  content : String
  url : String
  published_at : Int
  severity : String
  category : String
  contact : String
deriving DecidableEq

/-- The fixed 5-record mock official-updates set, `published_at` offsets
relative to `now` exactly as in the source (4h, 2h, 1h, 30min, 6h ago). -/
def mockOfficialUpdates (now : Int) : List UpdateRecord :=
  [ { id := "1", source := "FEMA",
      title := "Emergency Shelter Locations Updated",
      content := "New emergency shelters have been opened in Manhattan and Brooklyn. Capacity for 500+ people available.",
      url := "https://fema.gov/disaster-updates",
      published_at := now - 4 * 60 * 60 * 1000,
      severity := "high", category := "shelter", contact := "1-800-621-3362" },
    { id := "2", source := "NYC Emergency Management",
      title := "Water Distribution Points Active",
      content := "Water distribution is now active at Central Park and Prospect Park locations from 8 AM to 6 PM.",
      url := "https://nyc.gov/emergency",
      published_at := now - 2 * 60 * 60 * 1000,
      severity := "medium", category := "supplies", contact := "311" },
    { id := "3", source := "Red Cross",
      title := "Volunteer Registration Open",
      content := "Red Cross is accepting volunteer registrations for disaster relief efforts. Training provided.",
      url := "https://redcross.org/volunteer",
      published_at := now - 1 * 60 * 60 * 1000,
      severity := "low", category := "volunteer", contact := "1-800-733-2767" },
    { id := "4", source := "National Weather Service",
      title := "Severe Weather Alert Extended",
      content := "Severe weather conditions expected to continue through tomorrow evening. Stay indoors.",
      url := "https://weather.gov/alerts",
      published_at := now - 30 * 60 * 1000,
      severity := "high", category := "weather", contact := "weather.gov" },
    { id := "5", source := "Salvation Army",
      title := "Mobile Food Units Deployed",
      content := "Mobile food units are serving hot meals in affected areas. Check locations on our website.",
      url := "https://salvationarmy.org/disaster-relief",
      published_at := now - 6 * 60 * 60 * 1000,
      severity := "medium", category := "food", contact := "1-800-725-2769" } ]

/-- Outcome of one per-source live-retrieval attempt (the body of the
`try` block of a scraper; in the current program the live scraping is
commented out and every attempt succeeds with that source's mock rows). -/
structure OfficialAttempts where
  fema : Except Unit (List UpdateRecord)
  redcross : Except Unit (List UpdateRecord)
  nyc : Except Unit (List UpdateRecord)
  weather : Except Unit (List UpdateRecord)

/-- `scrapeFEMAUpdates`: on any attempt error the `catch` substitutes the
FEMA rows of the mock set. -/
def scrapeFEMAUpdates (a : Except Unit (List UpdateRecord)) (now : Int) : List UpdateRecord :=
  match a with
  | .ok r => r
  | .error _ => (mockOfficialUpdates now).filter (fun u => u.source == "FEMA")

/-- `scrapeRedCrossUpdates`: error falls back to the Red Cross mock rows. -/
def scrapeRedCrossUpdates (a : Except Unit (List UpdateRecord)) (now : Int) : List UpdateRecord :=
  match a with
  | .ok r => r
  | .error _ => (mockOfficialUpdates now).filter (fun u => u.source == "Red Cross")

/-- `scrapeNYCEmergencyUpdates`: error falls back to the NYC mock rows. -/
def scrapeNYCEmergencyUpdates (a : Except Unit (List UpdateRecord)) (now : Int) : List UpdateRecord :=
  match a with
  | .ok r => r
  | .error _ => (mockOfficialUpdates now).filter (fun u => u.source == "NYC Emergency Management")

/-- `scrapeWeatherServiceUpdates`: error falls back to the NWS mock rows. -/
def scrapeWeatherServiceUpdates (a : Except Unit (List UpdateRecord)) (now : Int) : List UpdateRecord :=
  match a with
  | .ok r => r
  | .error _ => (mockOfficialUpdates now).filter (fun u => u.source == "National Weather Service")

/-- The attempts of the current program: every scraper's `try` body
returns that source's mock rows (live scraping is commented out). -/
def currentAttempts (now : Int) : OfficialAttempts :=
  { fema := .ok ((mockOfficialUpdates now).filter (fun u => u.source == "FEMA")),
    redcross := .ok ((mockOfficialUpdates now).filter (fun u => u.source == "Red Cross")),
    nyc := .ok ((mockOfficialUpdates now).filter (fun u => u.source == "NYC Emergency Management")),
    weather := .ok ((mockOfficialUpdates now).filter (fun u => u.source == "National Weather Service")) }

/-- FEMA contribution to the aggregate (`if (shouldScrapeAll || sources.includes('fema'))`). -/
def femaSegment (att : OfficialAttempts) (sources : List String) (now : Int) : List UpdateRecord :=
  if sources.contains "all" || sources.contains "fema" then scrapeFEMAUpdates att.fema now else []

/-- Red Cross contribution to the aggregate. -/
def redcrossSegment (att : OfficialAttempts) (sources : List String) (now : Int) : List UpdateRecord :=
  if sources.contains "all" || sources.contains "redcross" then scrapeRedCrossUpdates att.redcross now else []

/-- NYC Emergency Management contribution to the aggregate. -/
def nycSegment (att : OfficialAttempts) (sources : List String) (now : Int) : List UpdateRecord :=
  if sources.contains "all" || sources.contains "nyc" then scrapeNYCEmergencyUpdates att.nyc now else []

/-- National Weather Service contribution to the aggregate. -/
def weatherSegment (att : OfficialAttempts) (sources : List String) (now : Int) : List UpdateRecord :=
  if sources.contains "all" || sources.contains "weather" then scrapeWeatherServiceUpdates att.weather now else []

/-- `allUpdates` accumulated by `fetchOfficialUpdates` before sorting. -/
def aggregateOfficialUpdates (att : OfficialAttempts) (sources : List String) (now : Int) : List UpdateRecord :=
  femaSegment att sources now ++ redcrossSegment att sources now ++
    nycSegment att sources now ++ weatherSegment att sources now

/-- `severityOrder[s]` of the sort comparator ({high: 3, medium: 2, low: 1}).
For a severity outside the table JavaScript would produce `NaN` (which the
sort treats as a tie); the pipeline only ever carries the three listed
values, and the rank defaults to 0 outside them. -/
def sevRank (s : String) : Int :=
  if s == "high" then 3 else if s == "medium" then 2 else if s == "low" then 1 else 0

/-- The comparator of `fetchOfficialUpdates`: severity rank descending,
then `published_at` descending. -/
def updateCmp (a b : UpdateRecord) : Int :=
  let severityDiff := sevRank b.severity - sevRank a.severity
  if severityDiff ≠ 0 then severityDiff else b.published_at - a.published_at

/-- `a` sorts no later than `b` under the official-updates comparator. -/
def updateLe (a b : UpdateRecord) : Prop := updateCmp a b ≤ 0

instance : DecidableRel updateLe :=
  fun a b => inferInstanceAs (Decidable (updateCmp a b ≤ 0))

/-- `fetchOfficialUpdates(sources)`: aggregate the selected sources'
records; if the aggregate is empty return the full mock set; otherwise
return the aggregate sorted by the comparator (JavaScript `Array.sort`
is stable, modelled by Mathlib's stable insertion sort). -/
def fetchOfficialUpdates (att : OfficialAttempts) (sources : List String) (now : Int) : List UpdateRecord :=
  let allUpdates := aggregateOfficialUpdates att sources now
  if allUpdates.isEmpty then mockOfficialUpdates now
  else List.insertionSort updateLe allUpdates

/-- `filterOfficialUpdates(updates, category, severity)`: each provided
(truthy) filter keeps records with a truthy field equal, lower-cased, to
the requested value. -/
def filterOfficialUpdates (updates : List UpdateRecord) (category severity : Option String) : List UpdateRecord :=
  let f1 :=
    match category with
    | some c =>
        if c == "" then updates
        else updates.filter (fun u => !(u.category == "") && (jsToLower u.category == jsToLower c))
    | none => updates
  match severity with
  | some s =>
      if s == "" then f1
      else f1.filter (fun u => !(u.severity == "") && (jsToLower u.severity == jsToLower s))
  | none => f1

/-- `searchOfficialUpdates(updates, keywords)`: falsy keywords are the
identity; otherwise keep records where some comma-separated, trimmed,
lower-cased term occurs in the lower-cased `title content` text. -/
def searchOfficialUpdates (updates : List UpdateRecord) (keywords : Option String) : List UpdateRecord :=
  match keywords with
  | none => updates
  | some k =>
      if k == "" then updates
      else
        let keywordArray := (jsSplitComma (jsToLower k)).map jsTrim
        updates.filter (fun u =>
          keywordArray.any (fun t => jsIncludes (jsToLower (u.title ++ " " ++ u.content)) t))

/-- A social-media crisis report (`SocialPost` of the data model). -/
structure SocialPost where
  id : String
  post : String
  user : String
  timestamp : Int
  priority : String
  verified : Bool
  location : Option String
  hashtags : List String
deriving DecidableEq

/-- A social post after processing: incoming fields copied, `priority`
overwritten, `processed_at` and `relevance_score` attached. -/
structure ProcessedPost where
  id : String
  post : String
  user : String
  timestamp : Int
  priority : String
  verified : Bool
  location : Option String
  hashtags : List String
  processed_at : Int
  relevance_score : Int
deriving DecidableEq

/-- The fixed 6-record mock social-media set of the social service,
timestamp offsets relative to `now` as in the source. -/
def mockSocialMediaData (now : Int) : List SocialPost :=
  [ { id := "1",
      post := "#floodrelief Need food and water in Lower Manhattan. Families stranded!",
      user := "citizen_helper1", timestamp := now - 2 * 60 * 60 * 1000,
      priority := "high", verified := false,
      location := some "Lower Manhattan, NYC",
      hashtags := ["#floodrelief", "#emergency"] },
    { id := "2",
      post := "Offering shelter in Brooklyn Heights for flood victims. Contact me! #disasterhelp",
      user := "brooklyn_resident", timestamp := now - 1 * 60 * 60 * 1000,
      priority := "medium", verified := false,
      location := some "Brooklyn Heights, NYC",
      hashtags := ["#disasterhelp", "#shelter"] },
    { id := "3",
      post := "URGENT: Medical supplies needed at evacuation center on 42nd Street #emergencyhelp",
      user := "medical_volunteer", timestamp := now - 30 * 60 * 1000,
      priority := "urgent", verified := false,
      location := some "42nd Street, NYC",
      hashtags := ["#emergencyhelp", "#medical"] },
    { id := "4",
      post := "Earthquake felt in downtown area. Buildings shaking! #earthquake #help",
      user := "downtown_witness", timestamp := now - 15 * 60 * 1000,
      priority := "urgent", verified := false,
      location := some "Downtown",
      hashtags := ["#earthquake", "#help"] },
    { id := "5",
      post := "Fire spreading near residential area. Evacuations needed! #fire #evacuate",
      user := "safety_alert", timestamp := now - 45 * 60 * 1000,
      priority := "urgent", verified := false,
      location := some "Residential District",
      hashtags := ["#fire", "#evacuate"] },
    { id := "6",
      post := "Have extra blankets and warm clothes for disaster victims #donate #help",
      user := "community_helper", timestamp := now - 3 * 60 * 60 * 1000,
      priority := "low", verified := false,
      location := some "Community Center",
      hashtags := ["#donate", "#help"] } ]

/-- `fetchMockSocialMediaData(keywords, disasterType)`: the mock set,
filtered by keyword terms against post text and hashtags when keywords
are truthy, then by the disaster type the same way when truthy. -/
def fetchMockSocialMediaData (keywords disasterType : Option String) (now : Int) : List SocialPost :=
  let d0 := mockSocialMediaData now
  let d1 :=
    match keywords with
    | some k =>
        if k == "" then d0
        else
          let keywordArray := (jsSplitComma (jsToLower k)).map jsTrim
          d0.filter (fun p =>
            keywordArray.any (fun kw =>
              jsIncludes (jsToLower p.post) kw ||
                p.hashtags.any (fun h => jsIncludes (jsToLower h) kw)))
    | none => d0
  match disasterType with
  | some t =>
      if t == "" then d1
      else
        let ty := jsToLower t
        d1.filter (fun p =>
          jsIncludes (jsToLower p.post) ty ||
            p.hashtags.any (fun h => jsIncludes (jsToLower h) ty))
  | none => d1

/-- Priority assignment of `processSocialMediaData`: scan the lower-cased
post text, first match wins over urgent, then high, then medium keyword
sets, else low. -/
def classifyPriority (post : String) : String :=
  let postText := jsToLower post
  if jsIncludes postText "urgent" || jsIncludes postText "sos" ||
      jsIncludes postText "emergency" || jsIncludes postText "evacuate" then "urgent"
  else if jsIncludes postText "need" || jsIncludes postText "help" ||
      jsIncludes postText "stranded" || jsIncludes postText "trapped" then "high"
  else if jsIncludes postText "offering" || jsIncludes postText "volunteer" ||
      jsIncludes postText "shelter" || jsIncludes postText "donate" then "medium"
  else "low"

/-- One iteration of the `keywordArray.forEach` accumulation inside
`calculateRelevanceScore`: add 3 for a post-text match, 2 for a hashtag
match, 1 for a (truthy) location match of the term. -/
def relevanceStep (post : SocialPost) (score : Int) (kw : String) : Int :=
  let s1 := if jsIncludes (jsToLower post.post) kw then score + 3 else score
  let s2 := if post.hashtags.any (fun h => jsIncludes (jsToLower h) kw) then s1 + 2 else s1
  match post.location with
  | some loc => if !(loc == "") && jsIncludes (jsToLower loc) kw then s2 + 1 else s2
  | none => s2

/-- `calculateRelevanceScore(post, keywords)`: falsy keywords give the
constant baseline 1; otherwise the per-term increments (`relevanceStep`)
are folded over the comma-separated, trimmed, lower-cased terms. -/
def calculateRelevanceScore (post : SocialPost) (keywords : Option String) : Int :=
  match keywords with
  | none => 1
  | some k =>
      if k == "" then 1
      else
        let keywordArray := (jsSplitComma (jsToLower k)).map jsTrim
        keywordArray.foldl (relevanceStep post) 0

/-- The per-post map stage of `processSocialMediaData`: spread the post,
overwrite `priority`, attach `processed_at` and `relevance_score`. -/
def annotatePost (post : SocialPost) (keywords : Option String) (now : Int) : ProcessedPost :=
  { id := post.id, post := post.post, user := post.user,
    timestamp := post.timestamp, priority := classifyPriority post.post,
    verified := post.verified, location := post.location,
    hashtags := post.hashtags, processed_at := now,
    relevance_score := calculateRelevanceScore post keywords }

/-- `priorityOrder[p]` of the social sort ({urgent: 3, high: 2, medium: 1, low: 0}). -/
def prioRank (p : String) : Int :=
  if p == "urgent" then 3 else if p == "high" then 2 else if p == "medium" then 1 else 0

/-- The comparator of `processSocialMediaData`: priority rank descending,
then relevance score descending. -/
def socialCmp (a b : ProcessedPost) : Int :=
  let priorityDiff := prioRank b.priority - prioRank a.priority
  if priorityDiff ≠ 0 then priorityDiff else b.relevance_score - a.relevance_score

/-- `a` sorts no later than `b` under the social comparator. -/
def socialLe (a b : ProcessedPost) : Prop := socialCmp a b ≤ 0

instance : DecidableRel socialLe :=
  fun a b => inferInstanceAs (Decidable (socialCmp a b ≤ 0))

/-- `processSocialMediaData(data, keywords)`: annotate every post, then
stable-sort by (priority rank, relevance score) descending. -/
def processSocialMediaData (data : List SocialPost) (keywords : Option String) (now : Int) : List ProcessedPost :=
  let processed := data.map (fun post => annotatePost post keywords now)
  List.insertionSort socialLe processed

/-- Which provider credentials are configured in the environment. -/
structure SocialEnv where
  twitter : Bool
  bluesky : Bool

/-- `fetchTwitterData(query, count)`: the stub returns the mock set
filtered by the query (no disaster type), ignoring `count`. -/
def fetchTwitterData (query : Option String) (now : Int) : List SocialPost :=
  fetchMockSocialMediaData query none now

/-- `fetchBlueskyData(query, count)`: same stub behaviour as Twitter. -/
def fetchBlueskyData (query : Option String) (now : Int) : List SocialPost :=
  fetchMockSocialMediaData query none now

/-- `fetchSocialMediaData(keywords, disasterType, limit)`: provider chain
(Twitter if configured, else Bluesky if configured and nothing yet, else
the mock set), then processing.  The `limit` argument is accepted but
never applied to the returned data. -/
def fetchSocialMediaData (keywords disasterType : Option String) (limit : Int) (env : SocialEnv) (now : Int) : List ProcessedPost :=
  let data0 : List SocialPost := []
  let data1 := if env.twitter then fetchTwitterData keywords now else data0
  let data2 := if data1.isEmpty && env.bluesky then fetchBlueskyData keywords now else data1
  let data3 := if data2.isEmpty then fetchMockSocialMediaData keywords disasterType now else data2
  let _ := limit
  processSocialMediaData data3 keywords now

/-- Query parameters of `GET .../official-updates` (route param plus
query; `limit` is modelled already parsed, default 50). -/
structure OfficialReq where
  disaster_id : String
  sources : String
  category : Option String
  severity : Option String
  keywords : Option String
  limit : Int
deriving DecidableEq

/-- The response envelope of the official-updates controller
(`filters_applied` flattened into three fields). -/
structure OfficialEnvelope where
  disaster_id : String
  total_updates : Nat
  sources_checked : List String
  filters_category : Option String
  filters_severity : Option String
  filters_keywords : Option String
  last_updated : Int
  updates : List UpdateRecord
deriving DecidableEq

/-- Cache key of the official-updates controller (note: `limit` is not
part of the key). -/
def officialCacheKey (req : OfficialReq) : String :=
  "official_updates_" ++ req.disaster_id ++ "_" ++ req.sources ++ "_" ++
    orFalsy req.category "all" ++ "_" ++ orFalsy req.severity "all" ++ "_" ++
    orFalsy req.keywords "none"

/-- `sources === 'all' ? ['all'] : sources.split(',').map(s => s.trim())`. -/
def resolveSources (sources : String) : List String :=
  if sources == "all" then ["all"] else (jsSplitComma sources).map jsTrim

/-- The fetch/filter/search stages of the official-updates controller,
before the limit step. -/
def officialProcessed (req : OfficialReq) (att : OfficialAttempts) (now : Int) : List UpdateRecord :=
  let sourceArray := resolveSources req.sources
  let u0 := fetchOfficialUpdates att sourceArray now
  let u1 := if truthyStr req.category then filterOfficialUpdates u0 req.category none else u0
  let u2 := if truthyStr req.severity then filterOfficialUpdates u1 none req.severity else u1
  if truthyStr req.keywords then searchOfficialUpdates u2 req.keywords else u2

/-- The full cache-miss computation of the official-updates controller:
processed list, limit truncation (`if (limit && limit > 0)`), envelope. -/
def officialResponse (req : OfficialReq) (att : OfficialAttempts) (now : Int) : OfficialEnvelope :=
  let processed := officialProcessed req att now
  let limited := if 0 < req.limit then processed.take req.limit.toNat else processed
  { disaster_id := req.disaster_id,
    total_updates := limited.length,
    sources_checked := resolveSources req.sources,
    filters_category := nullFalsy req.category,
    filters_severity := nullFalsy req.severity,
    filters_keywords := nullFalsy req.keywords,
    last_updated := now,
    updates := limited }

/-- Modelled from the spec: the Cache Gateway (`middleware/cache`, whose
source is not in the repository snapshot) is a key-value store with
`get(key) → value | absent` and `set(key, value)`, read-your-last-write.
The official endpoint's store is an association list, most recent write
first. -/
def CacheO : Type := List (String × OfficialEnvelope)

/-- `getOfficialUpdates(req, res)`: cache hit returns the cached envelope
unchanged; cache miss computes the envelope, writes it through, and
returns it. -/
def getOfficialUpdatesCtl (cache : CacheO) (req : OfficialReq) (att : OfficialAttempts) (now : Int) :
    OfficialEnvelope × CacheO :=
  let key := officialCacheKey req
  match List.lookup key cache with
  | some v => (v, cache)
  | none =>
      let response := officialResponse req att now
      (response, (key, response) :: cache)

/-- Query parameters of `GET .../social-media`. -/
structure SocialReq where
  disaster_id : String
  keywords : Option String
  disaster_type : Option String
  limit : Int
deriving DecidableEq

/-- The envelope the social controller sends on a cache miss. -/
structure SocialEnvelope where
  disaster_id : String
  total_posts : Nat
  keywords_used : Option String
  disaster_type : Option String
  last_updated : Int
  posts : List ProcessedPost
deriving DecidableEq

/-- A JSON body of the social endpoint: either the assembled envelope
(cache miss) or the bare cached posts array (cache hit). -/
inductive SocialBody where
  | envelope (e : SocialEnvelope)
  | bare (posts : List ProcessedPost)
deriving DecidableEq

/-- Cache key of the social controller (`limit` is not part of the key). -/
def socialCacheKey (req : SocialReq) : String :=
  "social_media_" ++ req.disaster_id ++ "_" ++ orFalsy req.keywords "all" ++ "_" ++
    orFalsy req.disaster_type "general"

/-- Modelled from the spec: the social endpoint's view of the Cache
Gateway; it holds the bare posts arrays, not envelopes. -/
def CacheS : Type := List (String × List ProcessedPost)

/-- `getSocialMediaReports(req, res)`: a cache hit responds with the
cached value directly (the bare posts array); a miss fetches, caches the
posts array, and responds with the assembled envelope. -/
def getSocialMediaReportsCtl (cache : CacheS) (req : SocialReq) (env : SocialEnv) (now : Int) :
    SocialBody × CacheS :=
  let key := socialCacheKey req
  match List.lookup key cache with
  | some v => (SocialBody.bare v, cache)
  | none =>
      let data := fetchSocialMediaData req.keywords req.disaster_type req.limit env now
      (SocialBody.envelope
        { disaster_id := req.disaster_id,
          total_posts := data.length,
          keywords_used := req.keywords,
          disaster_type := req.disaster_type,
          last_updated := now,
          posts := data },
        (key, data) :: cache)

/-- Specification-side reading of the keyword sets of the priority
classifier: some set member occurs in the lower-cased text. -/
def matchesAny (text : String) (ks : List String) : Prop :=
  ∃ k ∈ ks, isSubstrOf k (jsToLower text)

instance instDecidableMatchesAny (text : String) (ks : List String) :
    Decidable (matchesAny text ks) :=
  inferInstanceAs (Decidable (∃ k ∈ ks, isSubstrOf k (jsToLower text)))

/-- The urgent keyword set of the spec. -/
def urgentTerms : List String := ["urgent", "sos", "emergency", "evacuate"]

/-- The high-priority keyword set of the spec. -/
def highTerms : List String := ["need", "help", "stranded", "trapped"]

/-- The medium-priority keyword set of the spec. -/
def mediumTerms : List String := ["offering", "volunteer", "shelter", "donate"]

/-- Specification-side per-term relevance contribution: 3 for a post-text
substring match, 2 for a hashtag match, 1 for a (non-empty) location
match. -/
def termScore (post : SocialPost) (kw : String) : Int :=
  (if isSubstrOf kw (jsToLower post.post) then 3 else 0) +
  (if ∃ h ∈ post.hashtags, isSubstrOf kw (jsToLower h) then 2 else 0) +
  (match post.location with
   | some loc => if loc ≠ "" ∧ isSubstrOf kw (jsToLower loc) then 1 else 0
   | none => 0)

theorem jsToLower_eq_empty_iff (s : String) : jsToLower s = "" ↔ s = "" := by
  cases s with
  | mk d =>
    cases d with
    | nil => exact Iff.rfl
    | cons c cs =>
      constructor
      · intro h
        exact absurd (congrArg String.data h) (by simp [jsToLower])
      · intro h
        exact absurd (congrArg String.data h) (by simp)

theorem updateLe_iff (a b : UpdateRecord) :
    updateLe a b ↔ sevRank b.severity < sevRank a.severity ∨
      (sevRank a.severity = sevRank b.severity ∧ b.published_at ≤ a.published_at) := by
  simp only [updateLe, updateCmp]
  split_ifs with h <;> omega

instance : IsTotal UpdateRecord updateLe :=
  ⟨fun a b => by rw [updateLe_iff, updateLe_iff]; omega⟩

instance : IsTrans UpdateRecord updateLe :=
  ⟨fun a b c hab hbc => by
    rw [updateLe_iff] at hab hbc ⊢
    omega⟩

theorem lookup_cons_self {α : Type} (k : String) (v : α) (c : List (String × α)) :
    List.lookup k ((k, v) :: c) = some v := by
  simp [List.lookup]

theorem relevanceStep_eq (post : SocialPost) (score : Int) (kw : String) :
    relevanceStep post score kw = score + termScore post kw := by
  simp only [relevanceStep, termScore, List.any_eq_true, ← jsIncludes_iff,
    Bool.and_eq_true, Bool.not_eq_true', beq_eq_false_iff_ne, ne_eq]
  rcases hl : post.location with _ | loc <;> dsimp only <;> split_ifs <;> omega

theorem relevance_foldl (post : SocialPost) (terms : List String) (init : Int) :
    terms.foldl (relevanceStep post) init = init + (terms.map (termScore post)).sum := by
  induction terms generalizing init with
  | nil => simp
  | cons t ts ih =>
    rw [List.foldl_cons, relevanceStep_eq, ih]
    simp [List.map_cons, List.sum_cons]
    omega

theorem nonempty_of_jsToLower_eq {x v : String} (hv : v ≠ "") (h : jsToLower x = jsToLower v) :
    ¬(x = "") := by
  intro hx
  subst hx
  exact hv ((jsToLower_eq_empty_iff v).mp h.symm)

theorem filterOfficial_both (ups : List UpdateRecord) (c s : String) (hc : c ≠ "") (hs : s ≠ "") :
    filterOfficialUpdates ups (some c) (some s) =
      ups.filter (fun u =>
        (jsToLower u.category == jsToLower c) && (jsToLower u.severity == jsToLower s)) := by
  unfold filterOfficialUpdates
  simp only [beq_eq_false_iff_ne, ne_eq, if_neg (by simpa using hc : ¬((c == "") = true)),
    if_neg (by simpa using hs : ¬((s == "") = true)), List.filter_filter]
  apply List.filter_congr
  intro u _
  cases hcat : (jsToLower u.category == jsToLower c) with
  | false => simp [hcat]
  | true =>
    cases hsev : (jsToLower u.severity == jsToLower s) with
    | false => simp [hcat, hsev]
    | true =>
      have h1 : ¬(u.category = "") := nonempty_of_jsToLower_eq hc (beq_iff_eq.mp hcat)
      have h2 : ¬(u.severity = "") := nonempty_of_jsToLower_eq hs (beq_iff_eq.mp hsev)
      simp [hcat, hsev, h1, h2]

theorem filterOfficial_cat (ups : List UpdateRecord) (c : String) (hc : c ≠ "") :
    filterOfficialUpdates ups (some c) none =
      ups.filter (fun u => jsToLower u.category == jsToLower c) := by
  unfold filterOfficialUpdates
  simp only [if_neg (by simpa using hc : ¬((c == "") = true))]
  apply List.filter_congr
  intro u _
  cases hcat : (jsToLower u.category == jsToLower c) with
  | false => simp [hcat]
  | true =>
    have h1 : ¬(u.category = "") := nonempty_of_jsToLower_eq hc (beq_iff_eq.mp hcat)
    simp [hcat, h1]

theorem filterOfficial_sev (ups : List UpdateRecord) (s : String) (hs : s ≠ "") :
    filterOfficialUpdates ups none (some s) =
      ups.filter (fun u => jsToLower u.severity == jsToLower s) := by
  unfold filterOfficialUpdates
  simp only [if_neg (by simpa using hs : ¬((s == "") = true))]
  apply List.filter_congr
  intro u _
  cases hsev : (jsToLower u.severity == jsToLower s) with
  | false => simp [hsev]
  | true =>
    have h1 : ¬(u.severity = "") := nonempty_of_jsToLower_eq hs (beq_iff_eq.mp hsev)
    simp [hsev, h1]

theorem official_roundtrip (cache : CacheO) (req1 req2 : OfficialReq) (att1 att2 : OfficialAttempts)
    (now1 now2 : Int) (hk : officialCacheKey req1 = officialCacheKey req2) :
    (getOfficialUpdatesCtl ((getOfficialUpdatesCtl cache req1 att1 now1).2) req2 att2 now2).1 =
      (getOfficialUpdatesCtl cache req1 att1 now1).1 := by
  unfold getOfficialUpdatesCtl
  rcases hl : List.lookup (officialCacheKey req1) cache with _ | v
  · simp only [hl, ← hk, lookup_cons_self]
  · simp only [hl, ← hk]

theorem social_mismatch (cache : CacheS) (req : SocialReq) (env : SocialEnv) (now1 now2 : Int)
    (hm : List.lookup (socialCacheKey req) cache = none) :
    ∃ e, (getSocialMediaReportsCtl cache req env now1).1 = SocialBody.envelope e ∧
      (getSocialMediaReportsCtl ((getSocialMediaReportsCtl cache req env now1).2) req env now2).1 =
        SocialBody.bare e.posts ∧
      SocialBody.bare e.posts ≠ (getSocialMediaReportsCtl cache req env now1).1 := by
  refine ⟨{ disaster_id := req.disaster_id,
            total_posts := (fetchSocialMediaData req.keywords req.disaster_type req.limit env now1).length,
            keywords_used := req.keywords,
            disaster_type := req.disaster_type,
            last_updated := now1,
            posts := fetchSocialMediaData req.keywords req.disaster_type req.limit env now1 },
    ?_, ?_, ?_⟩ <;>
    simp [getSocialMediaReportsCtl, hm, lookup_cons_self]

theorem fetch_sorted_perm (att : OfficialAttempts) (srcs : List String) (now : Int)
    (hne : aggregateOfficialUpdates att srcs now ≠ []) :
    List.Sorted updateLe (fetchOfficialUpdates att srcs now) ∧
      (fetchOfficialUpdates att srcs now).Perm (aggregateOfficialUpdates att srcs now) := by
  unfold fetchOfficialUpdates
  rw [if_neg (by simpa [List.isEmpty_iff] using hne)]
  exact ⟨List.sorted_insertionSort updateLe _, List.perm_insertionSort updateLe _⟩

theorem fetch_nonempty (att : OfficialAttempts) (srcs : List String) (now : Int) :
    fetchOfficialUpdates att srcs now ≠ [] := by
  unfold fetchOfficialUpdates
  cases h : (aggregateOfficialUpdates att srcs now).isEmpty with
  | true => rw [if_pos h]; simp [mockOfficialUpdates]
  | false =>
    rw [if_neg (by simp [h])]
    intro hnil
    have hlen := List.length_insertionSort updateLe (aggregateOfficialUpdates att srcs now)
    rw [hnil] at hlen
    rw [List.isEmpty_eq_false] at h
    exact h (List.eq_nil_of_length_eq_zero hlen.symm)

theorem fetch_empty_mock (att : OfficialAttempts) (srcs : List String) (now : Int)
    (h : aggregateOfficialUpdates att srcs now = []) :
    fetchOfficialUpdates att srcs now = mockOfficialUpdates now := by
  unfold fetchOfficialUpdates
  simp [h]

theorem matchesAny_urgent (p : String) :
    (jsIncludes (jsToLower p) "urgent" || jsIncludes (jsToLower p) "sos" ||
      jsIncludes (jsToLower p) "emergency" || jsIncludes (jsToLower p) "evacuate") = true ↔
    matchesAny p urgentTerms := by
  simp [matchesAny, urgentTerms, jsIncludes_iff, or_assoc]

theorem matchesAny_high (p : String) :
    (jsIncludes (jsToLower p) "need" || jsIncludes (jsToLower p) "help" ||
      jsIncludes (jsToLower p) "stranded" || jsIncludes (jsToLower p) "trapped") = true ↔
    matchesAny p highTerms := by
  simp [matchesAny, highTerms, jsIncludes_iff, or_assoc]

theorem matchesAny_medium (p : String) :
    (jsIncludes (jsToLower p) "offering" || jsIncludes (jsToLower p) "volunteer" ||
      jsIncludes (jsToLower p) "shelter" || jsIncludes (jsToLower p) "donate") = true ↔
    matchesAny p mediumTerms := by
  simp [matchesAny, mediumTerms, jsIncludes_iff, or_assoc]

/-- C1: (corrected) The official-updates pipeline applies a positive
`limit` as a prefix take of the first N items of the processed (ranked,
filtered, searched) sequence, so it returns at most `limit` items; the
social-reports pipeline accepts `limit` but its output is independent of
it (`fetchSocialMediaData` never truncates). -/
theorem c1_limit_truncation :
    (∀ (req : OfficialReq) (att : OfficialAttempts) (now : Int), 0 < req.limit →
      (officialResponse req att now).updates = (officialProcessed req att now).take req.limit.toNat ∧
        (officialResponse req att now).updates.length ≤ req.limit.toNat) ∧
    (∀ (kw dt : Option String) (l1 l2 : Int) (env : SocialEnv) (now : Int),
      fetchSocialMediaData kw dt l1 env now = fetchSocialMediaData kw dt l2 env now) := by
  constructor
  · intro req att now h
    refine ⟨by simp [officialResponse, h], ?_⟩
    simp only [officialResponse, if_pos h, List.length_take]
    exact min_le_left _ _
  · intro kw dt l1 l2 env now
    rfl

/-- C1 counterexample: with `limit = 2` the social pipeline still returns
all 6 mock posts, so the returned sequence exceeds `limit`. -/
theorem c1_social_ignores_limit_cex :
    ¬ ((fetchSocialMediaData none none 2 ⟨false, false⟩ 0).length ≤ 2) := by decide

/-- C1 witness: the official-updates take semantics at `limit = 2`. -/
theorem c1_limit_truncation_witness :
    0 < (2 : Int) ∧
      ((officialResponse ⟨"d1", "all", none, none, none, 2⟩ (currentAttempts 0) 0).updates =
        (officialProcessed ⟨"d1", "all", none, none, none, 2⟩ (currentAttempts 0) 0).take (2 : Int).toNat ∧
      (officialResponse ⟨"d1", "all", none, none, none, 2⟩ (currentAttempts 0) 0).updates.length ≤ (2 : Int).toNat) :=
  ⟨by decide, c1_limit_truncation.1 ⟨"d1", "all", none, none, none, 2⟩ (currentAttempts 0) 0 (by decide)⟩

/-- C2: (corrected) The official-updates endpoint serves the second of two
same-key calls from the cache with a body identical to the first call's
envelope; the social endpoint caches only the posts array, so its
cache-hit body is the bare array and differs from the first call's
envelope body. -/
theorem c2_cache_semantics :
    (∀ (cache : CacheO) (req1 req2 : OfficialReq) (att1 att2 : OfficialAttempts) (now1 now2 : Int),
      officialCacheKey req1 = officialCacheKey req2 →
        (getOfficialUpdatesCtl ((getOfficialUpdatesCtl cache req1 att1 now1).2) req2 att2 now2).1 =
          (getOfficialUpdatesCtl cache req1 att1 now1).1) ∧
    (∀ (cache : CacheS) (req : SocialReq) (env : SocialEnv) (now1 now2 : Int),
      List.lookup (socialCacheKey req) cache = none →
        ∃ e, (getSocialMediaReportsCtl cache req env now1).1 = SocialBody.envelope e ∧
          (getSocialMediaReportsCtl ((getSocialMediaReportsCtl cache req env now1).2) req env now2).1 =
            SocialBody.bare e.posts ∧
          SocialBody.bare e.posts ≠ (getSocialMediaReportsCtl cache req env now1).1) :=
  ⟨official_roundtrip, social_mismatch⟩

/-- C2 counterexample: two identical social-endpoint calls on an empty
cache produce different response bodies (envelope, then bare array). -/
theorem c2_social_body_differs_cex :
    (getSocialMediaReportsCtl ((getSocialMediaReportsCtl [] ⟨"d1", none, none, 2⟩ ⟨false, false⟩ 0).2)
        ⟨"d1", none, none, 2⟩ ⟨false, false⟩ 0).1 ≠
      (getSocialMediaReportsCtl [] ⟨"d1", none, none, 2⟩ ⟨false, false⟩ 0).1 := by decide

/-- C2 witness: official round-trip at a concrete request. -/
theorem c2_cache_semantics_witness :
    (getOfficialUpdatesCtl ((getOfficialUpdatesCtl [] ⟨"d1", "all", none, none, none, 50⟩
          (currentAttempts 0) 0).2) ⟨"d1", "all", none, none, none, 50⟩ (currentAttempts 0) 7).1 =
      (getOfficialUpdatesCtl [] ⟨"d1", "all", none, none, none, 50⟩ (currentAttempts 0) 0).1 :=
  c2_cache_semantics.1 [] ⟨"d1", "all", none, none, none, 50⟩ ⟨"d1", "all", none, none, none, 50⟩
    (currentAttempts 0) (currentAttempts 0) 0 7 rfl

/-- C3: (corrected) `fetchOfficialUpdates` itself sorts every non-empty
aggregate by severity rank then recency, descending (its output is a
sorted permutation of the aggregate); no separate ranker performs this.
The well-formedness hypothesis records that the JavaScript comparator is
only meaningful on the three declared severities. -/
theorem c3_fetcher_sorts :
    ∀ (att : OfficialAttempts) (srcs : List String) (now : Int),
      aggregateOfficialUpdates att srcs now ≠ [] →
      (∀ u ∈ aggregateOfficialUpdates att srcs now,
        u.severity = "high" ∨ u.severity = "medium" ∨ u.severity = "low") →
      List.Sorted updateLe (fetchOfficialUpdates att srcs now) ∧
        (fetchOfficialUpdates att srcs now).Perm (aggregateOfficialUpdates att srcs now) :=
  fun att srcs now hne _ => fetch_sorted_perm att srcs now hne

/-- C3 counterexample: the fetcher's output differs from the unsorted
aggregation order, so the output is not the unsorted aggregate. -/
theorem c3_fetcher_unsorted_cex :
    fetchOfficialUpdates (currentAttempts 0) ["all"] 0 ≠
      aggregateOfficialUpdates (currentAttempts 0) ["all"] 0 := by decide

/-- C3 witness: sortedness of the concrete all-sources fetch. -/
theorem c3_fetcher_sorts_witness :
    List.Sorted updateLe (fetchOfficialUpdates (currentAttempts 0) ["all"] 0) ∧
      (fetchOfficialUpdates (currentAttempts 0) ["all"] 0).Perm
        (aggregateOfficialUpdates (currentAttempts 0) ["all"] 0) :=
  c3_fetcher_sorts (currentAttempts 0) ["all"] 0 (by decide) (by decide)

/-- C4: (corrected) Processing the 6-record mock social set with no
keywords ranks the "URGENT: Medical supplies..." (id 3) and "Fire
spreading..." (id 5) posts first — the only two classified `urgent`,
kept in original relative order — ahead of the other four posts, all
classified `high` (the "Earthquake felt..." post contains no urgent-set
term but contains "help"), every relevance score being the baseline 1. -/
theorem c4_mock_processing :
    ∀ now pnow : Int,
      (processSocialMediaData (mockSocialMediaData now) none pnow).map
          (fun q => (q.id, q.priority, q.relevance_score)) =
        [("3", "urgent", 1), ("5", "urgent", 1), ("1", "high", 1),
         ("2", "high", 1), ("4", "high", 1), ("6", "high", 1)] :=
  fun _ _ => rfl

/-- C4 counterexample: the first three processed priorities are not all
`urgent` (the third-ranked post is `high`). -/
theorem c4_mock_processing_cex :
    ¬ (((processSocialMediaData (mockSocialMediaData 0) none 0).map (fun q => q.priority)).take 3 =
        ["urgent", "urgent", "urgent"]) := by decide

/-- C5: a record is kept by the keyword search iff some comma-separated,
trimmed, lower-cased term is a substring of its lower-cased
`title ++ " " ++ content`; falsy keywords are the identity. -/
theorem c5_search_semantics :
    (∀ ups, searchOfficialUpdates ups none = ups) ∧
    (∀ ups, searchOfficialUpdates ups (some "") = ups) ∧
    (∀ ups k, k ≠ "" → ∀ u, u ∈ searchOfficialUpdates ups (some k) ↔
      u ∈ ups ∧ ∃ t ∈ (jsSplitComma (jsToLower k)).map jsTrim,
        isSubstrOf t (jsToLower (u.title ++ " " ++ u.content))) := by
  refine ⟨fun _ => rfl, fun _ => rfl, fun ups k hk u => ?_⟩
  simp only [searchOfficialUpdates]
  rw [if_neg (by simpa using hk)]
  simp [List.mem_filter, List.any_eq_true, jsIncludes_iff]

/-- C5 witness: the NYC water-distribution mock record is found by the
`water,volunteer` search. -/
theorem c5_search_semantics_witness :
    (mockOfficialUpdates 0).get ⟨1, by decide⟩ ∈
      searchOfficialUpdates (mockOfficialUpdates 0) (some "water,volunteer") :=
  (c5_search_semantics.2.2 (mockOfficialUpdates 0) "water,volunteer" (by decide) _).mpr (by decide)

/-- C6: the priority classifier scans the lower-cased text with
first-match-wins precedence urgent, high, medium, low; in particular a
post matching both the urgent and the high set is classified urgent. -/
theorem c6_priority_precedence :
    (∀ p, classifyPriority p = "urgent" ↔ matchesAny p urgentTerms) ∧
    (∀ p, ¬ matchesAny p urgentTerms →
      (classifyPriority p = "high" ↔ matchesAny p highTerms)) ∧
    (∀ p, ¬ matchesAny p urgentTerms → ¬ matchesAny p highTerms →
      (classifyPriority p = "medium" ↔ matchesAny p mediumTerms)) ∧
    (∀ p, ¬ matchesAny p urgentTerms → ¬ matchesAny p highTerms → ¬ matchesAny p mediumTerms →
      classifyPriority p = "low") ∧
    (∀ p, matchesAny p urgentTerms → matchesAny p highTerms → classifyPriority p = "urgent") := by
  refine ⟨?_, ?_, ?_, ?_, ?_⟩
  · intro p
    simp only [classifyPriority]
    split_ifs with h1 h2 h3 <;>
      simp_all [← matchesAny_urgent p]
  · intro p hu
    simp only [classifyPriority]
    rw [if_neg (by simpa [matchesAny_urgent p] using hu)]
    split_ifs with h2 h3 <;> simp_all [← matchesAny_high p]
  · intro p hu hh
    simp only [classifyPriority]
    rw [if_neg (by simpa [matchesAny_urgent p] using hu),
      if_neg (by simpa [matchesAny_high p] using hh)]
    split_ifs with h3 <;> simp_all [← matchesAny_medium p]
  · intro p hu hh hm
    simp only [classifyPriority]
    rw [if_neg (by simpa [matchesAny_urgent p] using hu),
      if_neg (by simpa [matchesAny_high p] using hh),
      if_neg (by simpa [matchesAny_medium p] using hm)]
  · intro p hu _
    simp only [classifyPriority]
    rw [if_pos (by simpa [matchesAny_urgent p] using hu)]

/-- C6 witness: a post with both an urgent-set and a high-set term is
classified urgent. -/
theorem c6_priority_precedence_witness :
    classifyPriority "URGENT: need help evacuating" = "urgent" :=
  c6_priority_precedence.2.2.2.2 "URGENT: need help evacuating" (by decide) (by decide)

/-- C7: with truthy keywords the relevance score is the sum over the
comma-separated, trimmed, lower-cased terms of the 3/2/1 term scores;
falsy keywords give the constant baseline 1, not 0. -/
theorem c7_relevance_score :
    (∀ post, calculateRelevanceScore post none = 1) ∧
    (∀ post, calculateRelevanceScore post (some "") = 1) ∧
    (∀ post k, k ≠ "" → calculateRelevanceScore post (some k) =
      (((jsSplitComma (jsToLower k)).map jsTrim).map (termScore post)).sum) := by
  refine ⟨fun _ => rfl, fun _ => rfl, fun post k hk => ?_⟩
  simp only [calculateRelevanceScore]
  rw [if_neg (by simpa using hk), relevance_foldl]
  simp

/-- C7 witness: the score of the first mock post for a two-term query
equals the per-term sum. -/
theorem c7_relevance_score_witness :
    calculateRelevanceScore ((mockSocialMediaData 0).get ⟨0, by decide⟩) (some "flood, manhattan") =
      ((((jsSplitComma (jsToLower "flood, manhattan")).map jsTrim).map
        (termScore ((mockSocialMediaData 0).get ⟨0, by decide⟩))).sum) :=
  c7_relevance_score.2.2 ((mockSocialMediaData 0).get ⟨0, by decide⟩) "flood, manhattan" (by decide)

/-- C8: each provided (non-empty) filter keeps exactly the records whose
field equals the requested value case-insensitively, conjoined when both
are given; with no filters the function is the identity. -/
theorem c8_filter_semantics :
    (∀ ups, filterOfficialUpdates ups none none = ups) ∧
    (∀ ups c, c ≠ "" → filterOfficialUpdates ups (some c) none =
      ups.filter (fun u => jsToLower u.category == jsToLower c)) ∧
    (∀ ups s, s ≠ "" → filterOfficialUpdates ups none (some s) =
      ups.filter (fun u => jsToLower u.severity == jsToLower s)) ∧
    (∀ ups c s, c ≠ "" → s ≠ "" → filterOfficialUpdates ups (some c) (some s) =
      ups.filter (fun u =>
        (jsToLower u.category == jsToLower c) && (jsToLower u.severity == jsToLower s))) :=
  ⟨fun _ => rfl,
   fun ups c hc => filterOfficial_cat ups c hc,
   fun ups s hs => filterOfficial_sev ups s hs,
   fun ups c s hc hs => filterOfficial_both ups c s hc hs⟩

/-- C8 witness: case-insensitive category filtering of the mock set. -/
theorem c8_filter_semantics_witness :
    filterOfficialUpdates (mockOfficialUpdates 0) (some "SHELTER") none =
      (mockOfficialUpdates 0).filter (fun u => jsToLower u.category == jsToLower "SHELTER") :=
  c8_filter_semantics.2.1 (mockOfficialUpdates 0) "SHELTER" (by decide)

/-- C9: the fetcher is total and resilient: its result is never empty, an
empty aggregate is replaced by the full 5-record mock set, each source's
contribution depends only on that source's attempt, and an attempt error
substitutes exactly that source's mock rows. -/
theorem c9_fetch_resilient :
    (∀ att srcs now, fetchOfficialUpdates att srcs now ≠ []) ∧
    (∀ att srcs now, aggregateOfficialUpdates att srcs now = [] →
      fetchOfficialUpdates att srcs now = mockOfficialUpdates now) ∧
    (∀ att att2 srcs now, att.fema = att2.fema →
      femaSegment att srcs now = femaSegment att2 srcs now) ∧
    (∀ att att2 srcs now, att.redcross = att2.redcross →
      redcrossSegment att srcs now = redcrossSegment att2 srcs now) ∧
    (∀ att att2 srcs now, att.nyc = att2.nyc →
      nycSegment att srcs now = nycSegment att2 srcs now) ∧
    (∀ att att2 srcs now, att.weather = att2.weather →
      weatherSegment att srcs now = weatherSegment att2 srcs now) ∧
    (∀ att srcs now e, att.fema = .error e →
      femaSegment att srcs now = if srcs.contains "all" || srcs.contains "fema" then
        (mockOfficialUpdates now).filter (fun u => u.source == "FEMA") else []) ∧
    (∀ att srcs now e, att.redcross = .error e →
      redcrossSegment att srcs now = if srcs.contains "all" || srcs.contains "redcross" then
        (mockOfficialUpdates now).filter (fun u => u.source == "Red Cross") else []) ∧
    (∀ att srcs now e, att.nyc = .error e →
      nycSegment att srcs now = if srcs.contains "all" || srcs.contains "nyc" then
        (mockOfficialUpdates now).filter (fun u => u.source == "NYC Emergency Management") else []) ∧
    (∀ att srcs now e, att.weather = .error e →
      weatherSegment att srcs now = if srcs.contains "all" || srcs.contains "weather" then
        (mockOfficialUpdates now).filter (fun u => u.source == "National Weather Service") else []) := by
  refine ⟨fetch_nonempty, fetch_empty_mock, ?_, ?_, ?_, ?_, ?_, ?_, ?_, ?_⟩
  · intro att att2 srcs now h
    unfold femaSegment
    rw [h]
  · intro att att2 srcs now h
    unfold redcrossSegment
    rw [h]
  · intro att att2 srcs now h
    unfold nycSegment
    rw [h]
  · intro att att2 srcs now h
    unfold weatherSegment
    rw [h]
  · intro att srcs now e h
    unfold femaSegment scrapeFEMAUpdates
    rw [h]
  · intro att srcs now e h
    unfold redcrossSegment scrapeRedCrossUpdates
    rw [h]
  · intro att srcs now e h
    unfold nycSegment scrapeNYCEmergencyUpdates
    rw [h]
  · intro att srcs now e h
    unfold weatherSegment scrapeWeatherServiceUpdates
    rw [h]

/-- C9 witness: with every attempt failing and no recognized source the
aggregate is empty and the full mock set is returned; with all sources an
erroring FEMA attempt yields the FEMA mock rows. -/
theorem c9_fetch_resilient_witness :
    fetchOfficialUpdates ⟨.error (), .error (), .error (), .error ()⟩ ["nosuch"] 0 =
        mockOfficialUpdates 0 ∧
      femaSegment ⟨.error (), .error (), .error (), .error ()⟩ ["all"] 0 =
        (if List.contains ["all"] "all" || List.contains ["all"] "fema" then
          (mockOfficialUpdates 0).filter (fun u => u.source == "FEMA") else []) :=
  ⟨c9_fetch_resilient.2.1 ⟨.error (), .error (), .error (), .error ()⟩ ["nosuch"] 0 (by decide),
   c9_fetch_resilient.2.2.2.2.2.2.1 ⟨.error (), .error (), .error (), .error ()⟩ ["all"] 0 () rfl⟩

/-- C10: the processed priority is a function of the post text alone: two
inputs differing only in the stored `priority` field process identically,
and the mock post with id 6 (stored `low`) comes out `high`. -/
theorem c10_priority_overwrite :
    (∀ (p : SocialPost) (pr : String) (kw : Option String) (now : Int),
      annotatePost { p with priority := pr } kw now = annotatePost p kw now) ∧
    ((processSocialMediaData (mockSocialMediaData 0) none 0).filter
        (fun q => q.id == "6")).map (fun q => q.priority) = ["high"] :=
  ⟨fun _ _ _ _ => rfl, by decide⟩
